import Mathlib

/-!
# Verification of the MyBIRME crop-geometry and smart-crop pipeline

Shallow embedding of the core of the MyBIRME batch image cropper:

* `src/lib/cropMath.ts` — pure crop geometry (`calculateCrop`,
  `smartCropToCropState`, `clampCropCenter`, `getMaxScale`);
* `src/lib/smartCropWorker.ts` — memoized saliency analysis
  (`analyzeImage`, `clearSmartCropCache`, `batchAnalyze`);
* `src/context/AppContext.tsx` — the reducer-based collection state
  machine (`appReducer`) and its orchestration helpers
  (`runSmartCropForImage`, `removeImage`, `clearImages`);
* `src/lib/exportUtils.ts` — batch export (`exportImages`).

JavaScript numbers are modelled as rationals (`ℚ`); pixel payloads
(`File`, `ImageBitmap`, blobs) are abstracted to presence flags and
oracle outcomes, since the detector and rasterizer are external
collaborators.  Asynchronous completion is modelled by sequencing the
dispatches exactly in source order.
-/

namespace MyBIRME

/-- `CropState` from `src/types/image.ts`: normalized framing descriptor.
`sourceHash` is the optional persistence fingerprint; `rotation` is
reserved and unused. -/
structure CropState where
  centerX : ℚ
  centerY : ℚ
  scale : ℚ
  aspect : ℚ
  rotation : Option ℚ := none
  sourceHash : Option String := none
  deriving Repr, DecidableEq

/-- `CropCalculation` from `src/types/image.ts`: the unrounded crop
rectangle together with the base (fit) rectangle. -/
structure CropCalculation where
  baseWidth : ℚ
  baseHeight : ℚ
  cropWidth : ℚ
  cropHeight : ℚ
  cropX : ℚ
  cropY : ℚ
  deriving Repr, DecidableEq

/-- `calculateCrop` from `src/lib/cropMath.ts` (lines 12-53): base
rectangle of the target aspect fitted inside the image, shrunk by the
zoom factor, positioned from the normalized center and clamped to the
image bounds. -/
def calculateCrop (imageWidth imageHeight : ℚ) (cropState : CropState) :
    CropCalculation :=
  let imageAspect := imageWidth / imageHeight
  let baseWidth :=
    if cropState.aspect ≥ imageAspect then imageWidth
    else imageHeight * cropState.aspect
  let baseHeight :=
    if cropState.aspect ≥ imageAspect then imageWidth / cropState.aspect
    else imageHeight
  let cropWidth := baseWidth / cropState.scale
  let cropHeight := baseHeight / cropState.scale
  let cropX := max 0 (min (imageWidth - cropWidth)
    (cropState.centerX * imageWidth - cropWidth / 2))
  let cropY := max 0 (min (imageHeight - cropHeight)
    (cropState.centerY * imageHeight - cropHeight / 2))
  ⟨baseWidth, baseHeight, cropWidth, cropHeight, cropX, cropY⟩

/-- `smartCropToCropState` from `src/lib/cropMath.ts` (lines 75-115):
converts a detector rectangle into a normalized framing; the zoom is
the tighter-axis cover zoom clamped to `[1, 5]`. -/
def smartCropToCropState (scX scY scW scH : ℚ)
    (imageWidth imageHeight targetAspect : ℚ) : CropState :=
  let centerX := (scX + scW / 2) / imageWidth
  let centerY := (scY + scH / 2) / imageHeight
  let imageAspect := imageWidth / imageHeight
  let baseWidth :=
    if targetAspect ≥ imageAspect then imageWidth
    else imageHeight * targetAspect
  let baseHeight :=
    if targetAspect ≥ imageAspect then imageWidth / targetAspect
    else imageHeight
  let scaleX := baseWidth / scW
  let scaleY := baseHeight / scH
  let scale := max 1 (min (min scaleX scaleY) 5)
  ⟨centerX, centerY, scale, targetAspect, none, none⟩

/-- `clampCropCenter` from `src/lib/cropMath.ts` (lines 120-137): clamps
a normalized center so the crop of the given size stays inside the
image. -/
def clampCropCenter (centerX centerY cropWidth cropHeight
    imageWidth imageHeight : ℚ) : ℚ × ℚ :=
  let minCenterX := (cropWidth / 2) / imageWidth
  let maxCenterX := 1 - minCenterX
  let minCenterY := (cropHeight / 2) / imageHeight
  let maxCenterY := 1 - minCenterY
  (max minCenterX (min maxCenterX centerX),
   max minCenterY (min maxCenterY centerY))

/-- `getMaxScale` from `src/lib/cropMath.ts` (lines 142-165): the
maximum zoom keeping the crop at least 50 px in each dimension, capped
at 10×. -/
def getMaxScale (imageWidth imageHeight aspect : ℚ) : ℚ :=
  let imageAspect := imageWidth / imageHeight
  let baseWidth :=
    if aspect ≥ imageAspect then imageWidth
    else imageHeight * aspect
  let baseHeight :=
    if aspect ≥ imageAspect then imageWidth / aspect
    else imageHeight
  min (min (baseWidth / 50) (baseHeight / 50)) 10

/-- The base (fit) rectangle of `targetAspect` inside the image — the
computation inlined identically in `calculateCrop`,
`smartCropToCropState` and `getMaxScale`. -/
def baseDims (imageWidth imageHeight aspect : ℚ) : ℚ × ℚ :=
  if aspect ≥ imageWidth / imageHeight then
    (imageWidth, imageWidth / aspect)
  else
    (imageHeight * aspect, imageHeight)

theorem calculateCrop_base (imageWidth imageHeight : ℚ) (cs : CropState) :
    (calculateCrop imageWidth imageHeight cs).baseWidth
        = (baseDims imageWidth imageHeight cs.aspect).1 ∧
      (calculateCrop imageWidth imageHeight cs).baseHeight
        = (baseDims imageWidth imageHeight cs.aspect).2 := by
  unfold calculateCrop baseDims
  by_cases h : cs.aspect ≥ imageWidth / imageHeight <;> simp [h]

theorem getMaxScale_eq_baseDims (imageWidth imageHeight aspect : ℚ) :
    getMaxScale imageWidth imageHeight aspect
      = min (min ((baseDims imageWidth imageHeight aspect).1 / 50)
          ((baseDims imageWidth imageHeight aspect).2 / 50)) 10 := by
  unfold getMaxScale baseDims
  by_cases h : aspect ≥ imageWidth / imageHeight <;> simp [h]

theorem baseDims_pos {imageWidth imageHeight aspect : ℚ}
    (hW : 0 < imageWidth) (hH : 0 < imageHeight) (hA : 0 < aspect) :
    0 < (baseDims imageWidth imageHeight aspect).1 ∧
      0 < (baseDims imageWidth imageHeight aspect).2 := by
  unfold baseDims
  by_cases h : aspect ≥ imageWidth / imageHeight
  · refine ⟨by simpa [h] using hW, ?_⟩
    simp only [h, if_pos]
    positivity
  · refine ⟨?_, by simpa [h] using hH⟩
    simp only [h, if_neg, not_false_iff]
    positivity

theorem baseDims_le {imageWidth imageHeight aspect : ℚ}
    (_hW : 0 < imageWidth) (hH : 0 < imageHeight) (hA : 0 < aspect) :
    (baseDims imageWidth imageHeight aspect).1 ≤ imageWidth ∧
      (baseDims imageWidth imageHeight aspect).2 ≤ imageHeight := by
  unfold baseDims
  by_cases h : aspect ≥ imageWidth / imageHeight
  · refine ⟨by simp [h], ?_⟩
    simp only [h, if_pos]
    rw [div_le_iff₀ hA]
    rw [ge_iff_le, div_le_iff₀ hH] at h
    linarith
  · refine ⟨?_, by simp [h]⟩
    simp only [h, if_neg, not_false_iff]
    push_neg at h
    rw [lt_div_iff₀ hH] at h
    linarith

theorem calculateCrop_cropDims (imageWidth imageHeight : ℚ) (cs : CropState) :
    (calculateCrop imageWidth imageHeight cs).cropWidth
        = (baseDims imageWidth imageHeight cs.aspect).1 / cs.scale ∧
      (calculateCrop imageWidth imageHeight cs).cropHeight
        = (baseDims imageWidth imageHeight cs.aspect).2 / cs.scale := by
  unfold calculateCrop baseDims
  by_cases h : cs.aspect ≥ imageWidth / imageHeight <;> simp [h]

theorem calculateCrop_cropPos (imageWidth imageHeight : ℚ) (cs : CropState) :
    (calculateCrop imageWidth imageHeight cs).cropX
        = max 0 (min (imageWidth - (calculateCrop imageWidth imageHeight cs).cropWidth)
            (cs.centerX * imageWidth
              - (calculateCrop imageWidth imageHeight cs).cropWidth / 2)) ∧
      (calculateCrop imageWidth imageHeight cs).cropY
        = max 0 (min (imageHeight - (calculateCrop imageWidth imageHeight cs).cropHeight)
            (cs.centerY * imageHeight
              - (calculateCrop imageWidth imageHeight cs).cropHeight / 2)) := by
  unfold calculateCrop
  by_cases h : cs.aspect ≥ imageWidth / imageHeight <;> simp [h]

/-- C6 — For positive image dimensions and any framing with `zoom ≥ 1`
and positive `targetAspect`, the unrounded crop rectangle derived by
`calculateCrop` lies within the image bounds:
`0 ≤ cropX`, `cropX + cropWidth ≤ imageWidth`, `0 ≤ cropY`,
`cropY + cropHeight ≤ imageHeight`. -/
theorem calculateCrop_within_bounds
    (imageWidth imageHeight : ℚ) (cs : CropState)
    (hW : 0 < imageWidth) (hH : 0 < imageHeight)
    (hs : 1 ≤ cs.scale) (hA : 0 < cs.aspect) :
    0 ≤ (calculateCrop imageWidth imageHeight cs).cropX ∧
      (calculateCrop imageWidth imageHeight cs).cropX
          + (calculateCrop imageWidth imageHeight cs).cropWidth ≤ imageWidth ∧
      0 ≤ (calculateCrop imageWidth imageHeight cs).cropY ∧
      (calculateCrop imageWidth imageHeight cs).cropY
          + (calculateCrop imageWidth imageHeight cs).cropHeight ≤ imageHeight := by
  obtain ⟨hbW0, hbH0⟩ := baseDims_pos hW hH hA
  obtain ⟨hbWle, hbHle⟩ := baseDims_le hW hH hA
  obtain ⟨hcw, hch⟩ := calculateCrop_cropDims imageWidth imageHeight cs
  obtain ⟨hcx, hcy⟩ := calculateCrop_cropPos imageWidth imageHeight cs
  have hcwle : (calculateCrop imageWidth imageHeight cs).cropWidth ≤ imageWidth := by
    rw [hcw]
    exact le_trans (div_le_self hbW0.le hs) hbWle
  have hchle : (calculateCrop imageWidth imageHeight cs).cropHeight ≤ imageHeight := by
    rw [hch]
    exact le_trans (div_le_self hbH0.le hs) hbHle
  refine ⟨?_, ?_, ?_, ?_⟩
  · rw [hcx]; exact le_max_left _ _
  · have : (calculateCrop imageWidth imageHeight cs).cropX
        ≤ imageWidth - (calculateCrop imageWidth imageHeight cs).cropWidth := by
      rw [hcx]
      exact max_le (by linarith) (min_le_left _ _)
    linarith
  · rw [hcy]; exact le_max_left _ _
  · have : (calculateCrop imageWidth imageHeight cs).cropY
        ≤ imageHeight - (calculateCrop imageWidth imageHeight cs).cropHeight := by
      rw [hcy]
      exact max_le (by linarith) (min_le_left _ _)
    linarith

/-- Witness for C6 at `imageWidth = 1200`, `imageHeight = 800` and the
fit framing for a square target. -/
theorem calculateCrop_within_bounds_witness :
    0 ≤ (calculateCrop 1200 800 ⟨1/2, 1/2, 1, 1, none, none⟩).cropX ∧
      (calculateCrop 1200 800 ⟨1/2, 1/2, 1, 1, none, none⟩).cropX
          + (calculateCrop 1200 800 ⟨1/2, 1/2, 1, 1, none, none⟩).cropWidth ≤ 1200 ∧
      0 ≤ (calculateCrop 1200 800 ⟨1/2, 1/2, 1, 1, none, none⟩).cropY ∧
      (calculateCrop 1200 800 ⟨1/2, 1/2, 1, 1, none, none⟩).cropY
          + (calculateCrop 1200 800 ⟨1/2, 1/2, 1, 1, none, none⟩).cropHeight ≤ 800 :=
  calculateCrop_within_bounds 1200 800 ⟨1/2, 1/2, 1, 1, none, none⟩
    (by norm_num) (by norm_num) (by norm_num) (by norm_num)

/-- C7 — `getMaxScale` equals `min(baseWidth/50, baseHeight/50, 10)` for
the base rectangle of the given aspect, and the crop rectangle computed
at zoom exactly `getMaxScale` has smaller dimension at least 50 px. -/
theorem getMaxScale_floor_50
    (imageWidth imageHeight aspect centerX centerY : ℚ)
    (rot : Option ℚ) (hash : Option String)
    (hW : 0 < imageWidth) (hH : 0 < imageHeight) (hA : 0 < aspect) :
    getMaxScale imageWidth imageHeight aspect
        = min (min ((baseDims imageWidth imageHeight aspect).1 / 50)
            ((baseDims imageWidth imageHeight aspect).2 / 50)) 10 ∧
      50 ≤ min (calculateCrop imageWidth imageHeight
            ⟨centerX, centerY, getMaxScale imageWidth imageHeight aspect,
              aspect, rot, hash⟩).cropWidth
          (calculateCrop imageWidth imageHeight
            ⟨centerX, centerY, getMaxScale imageWidth imageHeight aspect,
              aspect, rot, hash⟩).cropHeight := by
  obtain ⟨hbW0, hbH0⟩ := baseDims_pos hW hH hA
  have heq := getMaxScale_eq_baseDims imageWidth imageHeight aspect
  refine ⟨heq, ?_⟩
  obtain ⟨hcw, hch⟩ := calculateCrop_cropDims imageWidth imageHeight
    ⟨centerX, centerY, getMaxScale imageWidth imageHeight aspect, aspect, rot, hash⟩
  have hmz : 0 < getMaxScale imageWidth imageHeight aspect := by
    rw [heq]
    exact lt_min (lt_min (by positivity) (by positivity)) (by norm_num)
  have hmzW : getMaxScale imageWidth imageHeight aspect
      ≤ (baseDims imageWidth imageHeight aspect).1 / 50 := by
    rw [heq]
    exact le_trans (min_le_left _ _) (min_le_left _ _)
  have hmzH : getMaxScale imageWidth imageHeight aspect
      ≤ (baseDims imageWidth imageHeight aspect).2 / 50 := by
    rw [heq]
    exact le_trans (min_le_left _ _) (min_le_right _ _)
  rw [le_div_iff₀ (by norm_num : (0:ℚ) < 50)] at hmzW hmzH
  refine le_min ?_ ?_
  · rw [hcw, le_div_iff₀ hmz]
    linarith
  · rw [hch, le_div_iff₀ hmz]
    linarith

/-- Witness for C7 at a 1200×800 image with square target aspect. -/
theorem getMaxScale_floor_50_witness :
    getMaxScale 1200 800 1
        = min (min ((baseDims 1200 800 1).1 / 50) ((baseDims 1200 800 1).2 / 50)) 10 ∧
      50 ≤ min (calculateCrop 1200 800
            ⟨1/2, 1/2, getMaxScale 1200 800 1, 1, none, none⟩).cropWidth
          (calculateCrop 1200 800
            ⟨1/2, 1/2, getMaxScale 1200 800 1, 1, none, none⟩).cropHeight :=
  getMaxScale_floor_50 1200 800 1 (1/2) (1/2) none none
    (by norm_num) (by norm_num) (by norm_num)

theorem clamp_idem (a b c : ℚ) :
    max a (min b (max a (min b c))) = max a (min b c) := by
  rcases le_total a b with hab | hab <;> rcases le_total b c with hbc | hbc <;>
    simp [max_def, min_def] <;> split_ifs <;> linarith

/-- C9 — `clampCropCenter` is idempotent: for all crop and image
dimensions (degenerate cases included), applying it twice to any
center yields the same result as applying it once. -/
theorem clampCropCenter_idempotent
    (centerX centerY cropWidth cropHeight imageWidth imageHeight : ℚ) :
    clampCropCenter
        (clampCropCenter centerX centerY cropWidth cropHeight
          imageWidth imageHeight).1
        (clampCropCenter centerX centerY cropWidth cropHeight
          imageWidth imageHeight).2
        cropWidth cropHeight imageWidth imageHeight
      = clampCropCenter centerX centerY cropWidth cropHeight
          imageWidth imageHeight := by
  unfold clampCropCenter
  simp only [Prod.mk.injEq]
  exact ⟨clamp_idem _ _ _, clamp_idem _ _ _⟩

/-! ## Saliency cache and batch analyzer (`src/lib/smartCropWorker.ts`)

The external `smartcrop.crop` detector is modelled by an oracle value
`det : Option SCResult`: `some r` means the invocation resolves with
top crop `r`, `none` means it throws/rejects (which `analyzeImage`
catches, logs and resolves as `null`).  The module-global `cropCache`
map is threaded explicitly; `Map.set`/`Map.get` are modelled by
cons and first-match lookup, which agrees with the JS map on lookups. -/

/-- `SmartCropResult` from `src/types/image.ts`: detector rectangle in
source pixels plus a confidence score. -/
structure SCResult where
  x : ℚ
  y : ℚ
  width : ℚ
  height : ℚ
  score : ℚ
  deriving Repr, DecidableEq

/-- The `cropCache` map of `src/lib/smartCropWorker.ts` (line 27),
keyed by the concatenated string key. -/
abbrev SCCache := List (String × Option SCResult)

/-- `getCacheKey` from `src/lib/smartCropWorker.ts` (lines 29-31). -/
def getCacheKey (imageId : String) (targetWidth targetHeight : Nat) : String :=
  imageId ++ "_" ++ toString targetWidth ++ "_" ++ toString targetHeight

/-- Result of one `analyzeImage` call: the resolved value, the cache
afterwards, and whether the detector was actually invoked. -/
structure AnalyzeOut where
  result : Option SCResult
  cache : SCCache
  invoked : Bool
  deriving Repr, DecidableEq

/-- `analyzeImage` from `src/lib/smartCropWorker.ts` (lines 36-88): a
cache hit returns the cached value without invoking the detector; a
miss invokes the detector, caches a successful result, and resolves a
failure as `null` without caching anything. -/
def analyzeImage (cache : SCCache) (det : Option SCResult)
    (imageId : String) (targetWidth targetHeight : Nat) : AnalyzeOut :=
  let cacheKey := getCacheKey imageId targetWidth targetHeight
  match cache.lookup cacheKey with
  | some v => ⟨v, cache, false⟩
  | none =>
    match det with
    | some cropResult => ⟨some cropResult, (cacheKey, some cropResult) :: cache, true⟩
    | none => ⟨none, cache, true⟩

/-- `clearSmartCropCache` from `src/lib/smartCropWorker.ts`
(lines 93-104): with an id, removes every key starting with it;
without, clears the whole cache. -/
def clearSmartCropCache (cache : SCCache) (imageId : Option String) : SCCache :=
  match imageId with
  | some id => cache.filter (fun p => ! p.1.startsWith id)
  | none => []

/-- One batch job from `batchAnalyze`: image identity, target
dimensions, and the detector oracle outcome for its bitmap. -/
structure SCJob where
  imageId : String
  det : Option SCResult
  targetWidth : Nat
  targetHeight : Nat
  deriving Repr, DecidableEq

/-- Observable outcome of `batchAnalyze`: the results map, the recorded
`onProgress` calls in order, and the cache afterwards. -/
structure BatchOut where
  results : List (String × Option SCResult)
  progress : List (Nat × Nat)
  cache : SCCache
  deriving Repr, DecidableEq

/-- The completion body inside `batchAnalyze` (lines 127-137): run
`analyzeImage`, record the result under the job's image id, increment
`completed` and call `onProgress(completed, total)`. -/
def runBatchJob (total : Nat) (st : BatchOut × Nat) (job : SCJob) :
    BatchOut × Nat :=
  let out := analyzeImage st.1.cache job.det job.imageId
    job.targetWidth job.targetHeight
  let completed := st.2 + 1
  (⟨(job.imageId, out.result) :: st.1.results,
    st.1.progress ++ [(completed, total)],
    out.cache⟩, completed)

/-- The chunking of the `for (let i = 0; i < jobs.length; i += concurrency)`
loop (lines 123-124): consecutive slices of length `concurrency`.  For
`concurrency = 0` the source loop never terminates on a non-empty list;
that unreachable-for-positive-ceilings case is modelled as one chunk. -/
def toChunks {α : Type} : Nat → List α → List (List α)
  | _, [] => []
  | 0, a :: l => [a :: l]
  | c + 1, a :: l => (a :: l.take c) :: toChunks (c + 1) (l.drop c)
termination_by _ l => l.length
decreasing_by
  simp only [List.length_drop, List.length_cons]
  omega

/-- `await Promise.all(batch.map(...))`: within a chunk every job's
completion handler runs exactly once; the handlers are serialized in
job order (one admissible interleaving — `completed++` and the
progress call are atomic per completion, so the recorded progress
pairs are the same in every interleaving). -/
def processChunk (total : Nat) (st : BatchOut × Nat) (chunk : List SCJob) :
    BatchOut × Nat :=
  chunk.foldl (runBatchJob total) st

/-- `batchAnalyze` from `src/lib/smartCropWorker.ts` (lines 109-142),
threading the module cache explicitly (source default
`concurrency = 2`). -/
def batchAnalyze (jobs : List SCJob) (concurrency : Nat) (cache0 : SCCache) :
    BatchOut :=
  ((toChunks concurrency jobs).foldl (processChunk jobs.length)
    (⟨[], [], cache0⟩, 0)).1

theorem analyzeImage_hit {cache : SCCache} (det : Option SCResult)
    {imageId : String} {targetWidth targetHeight : Nat} {v : Option SCResult}
    (h : cache.lookup (getCacheKey imageId targetWidth targetHeight) = some v) :
    analyzeImage cache det imageId targetWidth targetHeight = ⟨v, cache, false⟩ := by
  unfold analyzeImage
  simp [h]

theorem analyzeImage_miss {cache : SCCache} (det : Option SCResult)
    {imageId : String} {targetWidth targetHeight : Nat}
    (h : cache.lookup (getCacheKey imageId targetWidth targetHeight) = none) :
    (analyzeImage cache det imageId targetWidth targetHeight).result = det ∧
      (analyzeImage cache det imageId targetWidth targetHeight).invoked = true ∧
      ((analyzeImage cache det imageId targetWidth targetHeight).cache = cache ∨
        (analyzeImage cache det imageId targetWidth targetHeight).cache
          = (getCacheKey imageId targetWidth targetHeight, det) :: cache) := by
  unfold analyzeImage
  cases det <;> simp [h]

/-- C4 counterexample — a first call whose detector invocation fails
resolves as `null` but caches nothing, so the repeated call with the
unchanged key `("img", 1, 1)` invokes the detector again, contradicting
the claim that the cached result is returned without re-invocation
even after a failure. -/
theorem analyzeImage_failure_reinvokes :
    (analyzeImage [] none "img" 1 1).result = none ∧
      (analyzeImage [] none "img" 1 1).invoked = true ∧
      (analyzeImage (analyzeImage [] none "img" 1 1).cache none "img" 1 1).invoked
        = true :=
  ⟨rfl, rfl, rfl⟩

/-- C4 (amended) — whenever the first call for a key resolves with a
result (`some r`), a repeated call with the unchanged key returns that
result from the cache without invoking the detector and leaves the
cache unchanged; a call that resolved as a failure caches nothing, so
only successful (or already-cached) results are served from cache. -/
theorem analyzeImage_repeat_cached
    (cache : SCCache) (det det' : Option SCResult)
    (imageId : String) (targetWidth targetHeight : Nat) (r : SCResult)
    (h : (analyzeImage cache det imageId targetWidth targetHeight).result = some r) :
    analyzeImage (analyzeImage cache det imageId targetWidth targetHeight).cache
        det' imageId targetWidth targetHeight
      = ⟨some r, (analyzeImage cache det imageId targetWidth targetHeight).cache,
          false⟩ := by
  rcases hl : cache.lookup (getCacheKey imageId targetWidth targetHeight) with _ | v
  · obtain ⟨hres, -, -⟩ := analyzeImage_miss det hl
    rw [hres] at h
    subst h
    have hcache : (analyzeImage cache (some r) imageId targetWidth targetHeight).cache
        = (getCacheKey imageId targetWidth targetHeight, some r) :: cache := by
      unfold analyzeImage
      simp [hl]
    have hl' : ((analyzeImage cache (some r) imageId targetWidth targetHeight).cache).lookup
        (getCacheKey imageId targetWidth targetHeight) = some (some r) := by
      rw [hcache]
      simp [List.lookup]
    exact analyzeImage_hit det' hl'
  · have heq := analyzeImage_hit det hl
    rw [heq] at h ⊢
    simp only at h
    subst h
    exact analyzeImage_hit det' hl

/-- Witness for C4 (amended) at a successful first call on key
`("img", 1, 1)`. -/
theorem analyzeImage_repeat_cached_witness :
    (analyzeImage [] (some ⟨0, 0, 10, 10, 1⟩) "img" 1 1).result
        = some ⟨0, 0, 10, 10, 1⟩ ∧
      analyzeImage (analyzeImage [] (some ⟨0, 0, 10, 10, 1⟩) "img" 1 1).cache
          none "img" 1 1
        = ⟨some ⟨0, 0, 10, 10, 1⟩,
            (analyzeImage [] (some ⟨0, 0, 10, 10, 1⟩) "img" 1 1).cache, false⟩ :=
  ⟨rfl, analyzeImage_repeat_cached [] (some ⟨0, 0, 10, 10, 1⟩) none "img" 1 1
    ⟨0, 0, 10, 10, 1⟩ rfl⟩

theorem toChunks_flatten {α : Type} (c : Nat) :
    ∀ (n : Nat) (l : List α), l.length ≤ n → (toChunks (c + 1) l).flatten = l := by
  intro n
  induction n with
  | zero =>
    intro l hl
    rw [List.eq_nil_of_length_eq_zero (Nat.le_zero.1 hl)]
    simp [toChunks]
  | succ n ih =>
    intro l hl
    cases l with
    | nil => simp [toChunks]
    | cons a t =>
      rw [toChunks, List.flatten_cons]
      rw [ih (t.drop c) (by simp only [List.length_drop]; simp at hl; omega)]
      simp [List.take_append_drop]

theorem batchAnalyze_eq_foldl (jobs : List SCJob) (c : Nat) (cache0 : SCCache) :
    batchAnalyze jobs (c + 1) cache0
      = (jobs.foldl (runBatchJob jobs.length) (⟨[], [], cache0⟩, 0)).1 := by
  unfold batchAnalyze processChunk
  rw [← List.foldl_flatten, toChunks_flatten c jobs.length jobs le_rfl]

theorem foldl_runBatchJob_progress (total : Nat) (jobs : List SCJob) :
    ∀ st : BatchOut × Nat,
      (jobs.foldl (runBatchJob total) st).2 = st.2 + jobs.length ∧
        (jobs.foldl (runBatchJob total) st).1.progress
          = st.1.progress
              ++ (List.range jobs.length).map (fun i => (st.2 + i + 1, total)) := by
  induction jobs with
  | nil => intro st; simp
  | cons j t ih =>
    intro st
    rw [List.foldl_cons]
    obtain ⟨h2, h1⟩ := ih (runBatchJob total st j)
    refine ⟨by rw [h2]; simp [runBatchJob]; omega, ?_⟩
    rw [h1]
    show (runBatchJob total st j).1.progress ++ _ = _
    simp only [List.length_cons]
    rw [List.range_succ_eq_map]
    simp only [runBatchJob, List.map_cons, List.map_map, List.append_assoc,
      List.cons_append, List.nil_append, Function.comp]
    congr 1
    all_goals norm_num
    all_goals intro a _
    all_goals omega

theorem foldl_runBatchJob_lookup_of_not_mem (total : Nat) (jobs : List SCJob) :
    ∀ (st : BatchOut × Nat) (i : String), (∀ j ∈ jobs, j.imageId ≠ i) →
      (jobs.foldl (runBatchJob total) st).1.results.lookup i
        = st.1.results.lookup i := by
  induction jobs with
  | nil => intro st i _; rfl
  | cons j t ih =>
    intro st i h
    rw [List.foldl_cons, ih _ i fun j' hj' => h j' (List.mem_cons_of_mem _ hj')]
    have hne : (i == j.imageId) = false :=
      beq_eq_false_iff_ne.mpr (Ne.symm (h j (List.mem_cons_self _ _)))
    simp [runBatchJob, List.lookup, hne]

theorem foldl_runBatchJob_results (total : Nat) :
    ∀ (jobs : List SCJob) (st : BatchOut × Nat),
      ((jobs.map fun j =>
        getCacheKey j.imageId j.targetWidth j.targetHeight).Nodup) →
      ((jobs.map fun j => j.imageId).Nodup) →
      (∀ j ∈ jobs, st.1.cache.lookup
        (getCacheKey j.imageId j.targetWidth j.targetHeight) = none) →
      ∀ j ∈ jobs,
        (jobs.foldl (runBatchJob total) st).1.results.lookup j.imageId
          = some j.det := by
  intro jobs
  induction jobs with
  | nil => intro st _ _ _ j hj; exact absurd hj (List.not_mem_nil j)
  | cons j0 t ih =>
    intro st hk hi hc j hj
    rw [List.foldl_cons]
    have hc0 : st.1.cache.lookup
        (getCacheKey j0.imageId j0.targetWidth j0.targetHeight) = none :=
      hc j0 (List.mem_cons_self _ _)
    obtain ⟨hres, -, hcache⟩ := analyzeImage_miss j0.det hc0
    have hresults : (runBatchJob total st j0).1.results
        = (j0.imageId, j0.det) :: st.1.results := by
      simp [runBatchJob, hres]
    rcases List.mem_cons.mp hj with rfl | hjt
    · have hnot : ∀ j' ∈ t, j'.imageId ≠ j.imageId := by
        intro j' hj' he
        have hmem : j.imageId ∈ t.map fun j'' => j''.imageId := by
          rw [← he]
          exact List.mem_map_of_mem _ hj'
        exact (List.nodup_cons.mp hi).1 hmem
      rw [foldl_runBatchJob_lookup_of_not_mem total t _ _ hnot, hresults]
      simp [List.lookup]
    · refine ih (runBatchJob total st j0) (List.nodup_cons.mp hk).2
        (List.nodup_cons.mp hi).2 ?_ j hjt
      intro j' hj'
      have hkey_ne : (getCacheKey j'.imageId j'.targetWidth j'.targetHeight
          == getCacheKey j0.imageId j0.targetWidth j0.targetHeight) = false := by
        refine beq_eq_false_iff_ne.mpr fun he => ?_
        have hmem : getCacheKey j0.imageId j0.targetWidth j0.targetHeight
            ∈ t.map fun j'' =>
              getCacheKey j''.imageId j''.targetWidth j''.targetHeight := by
          rw [← he]
          exact List.mem_map_of_mem _ hj'
        exact (List.nodup_cons.mp hk).1 hmem
      have hcc : (runBatchJob total st j0).1.cache
          = (analyzeImage st.1.cache j0.det j0.imageId
              j0.targetWidth j0.targetHeight).cache := rfl
      rcases hcache with h1 | h1 <;> rw [hcc, h1]
      · exact hc j' (List.mem_cons_of_mem _ hj')
      · simp only [List.lookup, hkey_ne]
        exact hc j' (List.mem_cons_of_mem _ hj')

/-- C8 — for every job list with identity-unique images (distinct ids
and cache keys, per the collection's identity-unique invariant), every
positive concurrency ceiling, and a fresh cache: batch analysis calls
the progress callback exactly `n` times, the `k`-th call being
`(k, n)` — monotonically increasing up to the final `(n, n)` — and
every job, a failed one included, is reported in the results map, a
failure as a `null` result for its image. -/
theorem batchAnalyze_progress_isolation
    (jobs : List SCJob) (concurrency : Nat) (hc : 0 < concurrency)
    (hids : (jobs.map fun j => j.imageId).Nodup)
    (hkeys : (jobs.map fun j =>
      getCacheKey j.imageId j.targetWidth j.targetHeight).Nodup) :
    (batchAnalyze jobs concurrency []).progress
        = (List.range jobs.length).map (fun i => (i + 1, jobs.length)) ∧
      ∀ j ∈ jobs,
        (batchAnalyze jobs concurrency []).results.lookup j.imageId
          = some j.det := by
  obtain ⟨c, rfl⟩ : ∃ c, concurrency = c + 1 := ⟨concurrency - 1, by omega⟩
  rw [batchAnalyze_eq_foldl]
  constructor
  · rw [(foldl_runBatchJob_progress jobs.length jobs (⟨[], [], []⟩, 0)).2]
    simp
  · intro j hj
    exact foldl_runBatchJob_results jobs.length jobs (⟨[], [], []⟩, 0) hkeys hids
      (fun j' _ => rfl) j hj

/-- Witness for C8: two jobs, the second failing, at concurrency 2. -/
theorem batchAnalyze_progress_isolation_witness :
    (0 : Nat) < 2 ∧
      (([⟨"a", some ⟨0, 0, 10, 10, 1⟩, 1, 1⟩, ⟨"b", none, 1, 1⟩] :
          List SCJob).map fun j => j.imageId).Nodup ∧
      (([⟨"a", some ⟨0, 0, 10, 10, 1⟩, 1, 1⟩, ⟨"b", none, 1, 1⟩] :
          List SCJob).map fun j =>
        getCacheKey j.imageId j.targetWidth j.targetHeight).Nodup ∧
      ((batchAnalyze [⟨"a", some ⟨0, 0, 10, 10, 1⟩, 1, 1⟩, ⟨"b", none, 1, 1⟩]
            2 []).progress
          = (List.range 2).map (fun i => (i + 1, 2)) ∧
        ∀ j ∈ ([⟨"a", some ⟨0, 0, 10, 10, 1⟩, 1, 1⟩, ⟨"b", none, 1, 1⟩] :
            List SCJob),
          (batchAnalyze [⟨"a", some ⟨0, 0, 10, 10, 1⟩, 1, 1⟩, ⟨"b", none, 1, 1⟩]
              2 []).results.lookup j.imageId = some j.det) :=
  ⟨by norm_num, by decide, by decide,
    batchAnalyze_progress_isolation
      [⟨"a", some ⟨0, 0, 10, 10, 1⟩, 1, 1⟩, ⟨"b", none, 1, 1⟩] 2
      (by norm_num) (by decide) (by decide)⟩

/-! ## Image collection state machine (`src/context/AppContext.tsx`)

The decoded-pixel handle, file object and thumbnail are abstracted to a
presence flag and plain strings; everything the reducer reads or writes
is kept.  The module-level smart-crop cache is threaded through the
context helpers (`removeImage`, `clearImages`, `runSmartCropForImage`)
as an explicit second component. -/

/-- Output format of `ExportSettings` (`src/types/image.ts`). -/
inductive ImgFormat
  | jpeg
  | png
  | webp
  deriving Repr, DecidableEq

/-- `ExportSettings` from `src/types/image.ts` (`prefix`/`suffix`
renamed to `prefixStr`/`suffixStr`). -/
structure ExportSettings where
  format : ImgFormat
  quality : ℚ
  targetWidth : Nat
  targetHeight : Nat
  aspectLocked : Bool
  prefixStr : String
  suffixStr : String
  startIndex : Nat
  deriving Repr, DecidableEq

/-- `AppSettings` from `src/types/image.ts`. -/
structure AppSettings where
  enableCrop : Bool
  enableSmartCrop : Bool
  showRuleOfThirds : Bool
  exportSettings : ExportSettings
  deriving Repr, DecidableEq

/-- `ImageFile` from `src/types/image.ts`; `hasBitmap` models
`bitmap: ImageBitmap | null` as a presence flag. -/
structure ImageFile where
  id : String
  name : String
  originalWidth : ℚ
  originalHeight : ℚ
  hasBitmap : Bool
  thumbnail : String
  cropState : CropState
  smartCropResult : Option SCResult := none
  isProcessing : Bool
  isSmartCropPending : Bool
  deriving Repr, DecidableEq

/-- `AppState` from `src/context/AppContext.tsx` (lines 10-16). -/
structure AppState where
  images : List ImageFile
  settings : AppSettings
  isProcessing : Bool
  selectedImageId : Option String
  editingImageId : Option String
  deriving Repr, DecidableEq

/-- `Partial<ExportSettings>` for the `UPDATE_EXPORT_SETTINGS` payload. -/
structure PartialExportSettings where
  format : Option ImgFormat := none
  quality : Option ℚ := none
  targetWidth : Option Nat := none
  targetHeight : Option Nat := none
  aspectLocked : Option Bool := none
  prefixStr : Option String := none
  suffixStr : Option String := none
  startIndex : Option Nat := none
  deriving Repr, DecidableEq

/-- `Partial<AppSettings>` for the `UPDATE_SETTINGS` payload. -/
structure PartialAppSettings where
  enableCrop : Option Bool := none
  enableSmartCrop : Option Bool := none
  showRuleOfThirds : Option Bool := none
  exportSettings : Option ExportSettings := none
  deriving Repr, DecidableEq

/-- `Partial<AppState>` for the `LOAD_STATE` payload. -/
structure PartialAppState where
  images : Option (List ImageFile) := none
  settings : Option AppSettings := none
  isProcessing : Option Bool := none
  selectedImageId : Option (Option String) := none
  editingImageId : Option (Option String) := none
  deriving Repr, DecidableEq

/-- JS object spread `{ ...s, ...p }` for export settings. -/
def ExportSettings.merge (s : ExportSettings) (p : PartialExportSettings) :
    ExportSettings where
  format := p.format.getD s.format
  quality := p.quality.getD s.quality
  targetWidth := p.targetWidth.getD s.targetWidth
  targetHeight := p.targetHeight.getD s.targetHeight
  aspectLocked := p.aspectLocked.getD s.aspectLocked
  prefixStr := p.prefixStr.getD s.prefixStr
  suffixStr := p.suffixStr.getD s.suffixStr
  startIndex := p.startIndex.getD s.startIndex

/-- JS object spread `{ ...s, ...p }` for app settings. -/
def AppSettings.merge (s : AppSettings) (p : PartialAppSettings) :
    AppSettings where
  enableCrop := p.enableCrop.getD s.enableCrop
  enableSmartCrop := p.enableSmartCrop.getD s.enableSmartCrop
  showRuleOfThirds := p.showRuleOfThirds.getD s.showRuleOfThirds
  exportSettings := p.exportSettings.getD s.exportSettings

/-- `AppAction` from `src/context/AppContext.tsx` (lines 18-33). -/
inductive AppAction
  | addImages (payload : List ImageFile)
  | removeImage (payload : String)
  | clearImages
  | updateCropState (id : String) (cropState : CropState)
  | updateAllCropStates (aspect : ℚ)
  | applyCropToAll (payload : CropState)
  | updateSettings (payload : PartialAppSettings)
  | updateExportSettings (payload : PartialExportSettings)
  | setProcessing (payload : Bool)
  | setSelectedImage (payload : Option String)
  | setEditingImage (payload : Option String)
  | setImageSmartCrop (id : String) (result : Option SCResult)
  | setImageProcessing (id : String) (isProcessing : Bool)
  | setImageSmartCropPending (id : String) (pending : Bool)
  | loadState (payload : PartialAppState)
  deriving Repr, DecidableEq

/-- `appReducer` from `src/context/AppContext.tsx` (lines 43-142). -/
def appReducer (state : AppState) (action : AppAction) : AppState :=
  match action with
  | .addImages payload =>
      { state with images := state.images ++ payload }
  | .removeImage payload =>
      { state with images := state.images.filter fun img => img.id != payload }
  | .clearImages =>
      { state with images := [], selectedImageId := none, editingImageId := none }
  | .updateCropState id cropState =>
      { state with images := state.images.map fun img =>
          if img.id == id then { img with cropState := cropState } else img }
  | .updateAllCropStates aspect =>
      { state with images := state.images.map fun img =>
          { img with cropState := { img.cropState with aspect := aspect } } }
  | .applyCropToAll payload =>
      { state with images := state.images.map fun img =>
          { img with cropState :=
              { payload with aspect :=
                  (state.settings.exportSettings.targetWidth : ℚ)
                    / (state.settings.exportSettings.targetHeight : ℚ) } } }
  | .updateSettings payload =>
      { state with settings := state.settings.merge payload }
  | .updateExportSettings payload =>
      { state with settings :=
          { state.settings with exportSettings :=
              state.settings.exportSettings.merge payload } }
  | .setProcessing payload =>
      { state with isProcessing := payload }
  | .setSelectedImage payload =>
      { state with selectedImageId := payload }
  | .setEditingImage payload =>
      { state with editingImageId := payload }
  | .setImageSmartCrop id result =>
      { state with images := state.images.map fun img =>
          if img.id == id then
            { img with smartCropResult := result, isSmartCropPending := false }
          else img }
  | .setImageProcessing id isProcessing =>
      { state with images := state.images.map fun img =>
          if img.id == id then { img with isProcessing := isProcessing } else img }
  | .setImageSmartCropPending id pending =>
      { state with images := state.images.map fun img =>
          if img.id == id then { img with isSmartCropPending := pending } else img }
  | .loadState payload =>
      { images := payload.images.getD state.images
        settings := payload.settings.getD state.settings
        isProcessing := payload.isProcessing.getD state.isProcessing
        selectedImageId := payload.selectedImageId.getD state.selectedImageId
        editingImageId := payload.editingImageId.getD state.editingImageId }

/-- The `removeImage` callback (lines 281-284): dispatch `REMOVE_IMAGE`
and invalidate the smart-crop cache entries of that image. -/
def removeImage (st : AppState × SCCache) (id : String) : AppState × SCCache :=
  (appReducer st.1 (.removeImage id), clearSmartCropCache st.2 (some id))

/-- The `clearImages` callback (lines 286-290): dispatch `CLEAR_IMAGES`
and clear the whole smart-crop cache (`clearStorage` touches only the
external persistence collaborator). -/
def clearImages (st : AppState × SCCache) : AppState × SCCache :=
  (appReducer st.1 .clearImages, clearSmartCropCache st.2 none)

/-- `runSmartCropForImage` (lines 195-223), with the detector outcome
for the image's bitmap supplied as the oracle `det`.  The source's
`catch` branch (which would reset the pending flag) is unreachable:
`analyzeImage` catches detector failures internally and resolves with
`null` instead of rejecting, so the model has no exception path. -/
def runSmartCropForImage (state : AppState) (cache : SCCache)
    (det : Option SCResult) (id : String) (imageOverride : Option ImageFile) :
    AppState × SCCache :=
  let image? := match imageOverride with
    | some img => some img
    | none => state.images.find? fun img => img.id == id
  match image? with
  | none => (state, cache)
  | some image =>
    if !image.hasBitmap || !state.settings.enableSmartCrop then (state, cache)
    else
      let st1 := appReducer state (.setImageSmartCropPending id true)
      let targetWidth := state.settings.exportSettings.targetWidth
      let targetHeight := state.settings.exportSettings.targetHeight
      let out := analyzeImage cache det id targetWidth targetHeight
      match out.result with
      | some r =>
        let st2 := appReducer st1 (.setImageSmartCrop id (some r))
        let newCropState0 := smartCropToCropState r.x r.y r.width r.height
          image.originalWidth image.originalHeight
          ((targetWidth : ℚ) / (targetHeight : ℚ))
        let newCropState :=
          { newCropState0 with sourceHash := image.cropState.sourceHash }
        (appReducer st2 (.updateCropState id newCropState), out.cache)
      | none => (st1, out.cache)

/-- A concrete loaded image for counterexamples and witnesses. -/
def sampleImage (id : String) : ImageFile where
  id := id
  name := id ++ ".jpg"
  originalWidth := 1200
  originalHeight := 800
  hasBitmap := true
  thumbnail := ""
  cropState := ⟨1/2, 1/2, 1, 3/2, none, some ("hash-" ++ id)⟩
  smartCropResult := none
  isProcessing := false
  isSmartCropPending := false

/-- Concrete settings with smart crop enabled and a 1200×800 target. -/
def sampleSettings : AppSettings where
  enableCrop := true
  enableSmartCrop := true
  showRuleOfThirds := false
  exportSettings :=
    ⟨.jpeg, 90, 1200, 800, false, "image-", "", 1⟩

/-- A state whose single image `"a"` is both selected and being edited. -/
def sampleState : AppState where
  images := [sampleImage "a"]
  settings := sampleSettings
  isProcessing := false
  selectedImageId := some "a"
  editingImageId := some "a"

/-- C1 counterexample — removing the image that is currently selected
and edited leaves both identity pointers referencing the removed entry:
after `removeImage "a"` on a state whose only image `"a"` is selected
and edited, the collection is empty yet `selectedImageId` and
`editingImageId` still hold `"a"`. -/
theorem removeImage_leaves_dangling_selection :
    (removeImage (sampleState, []) "a").1.selectedImageId = some "a" ∧
      (removeImage (sampleState, []) "a").1.editingImageId = some "a" ∧
      (removeImage (sampleState, []) "a").1.images = [] :=
  ⟨rfl, rfl, by decide⟩

/-- C1 (amended) — only `ClearAll` clears the selection and editing
identities (together with the collection); `RemoveImage` removes the
entry (and invalidates its cache keys) but leaves `selectedImageId`
and `editingImageId` unchanged, so a pointer to the removed entry
stays observable. -/
theorem clearAll_clears_removeImage_preserves_pointers
    (s : AppState) (cache : SCCache) (id : String) :
    ((clearImages (s, cache)).1.images = [] ∧
      (clearImages (s, cache)).1.selectedImageId = none ∧
      (clearImages (s, cache)).1.editingImageId = none ∧
      (clearImages (s, cache)).2 = []) ∧
    ((removeImage (s, cache) id).1.selectedImageId = s.selectedImageId ∧
      (removeImage (s, cache) id).1.editingImageId = s.editingImageId ∧
      (removeImage (s, cache) id).1.images
        = s.images.filter (fun img => img.id != id) ∧
      ((removeImage (s, cache) id).1.images.all fun img => img.id != id) = true ∧
      (removeImage (s, cache) id).2
        = cache.filter (fun p => ! p.1.startsWith id)) := by
  refine ⟨⟨rfl, rfl, rfl, rfl⟩, rfl, rfl, rfl, ?_, rfl⟩
  rw [List.all_eq_true]
  intro img hmem
  exact (List.mem_filter.mp hmem).2

/-- C2 evaluated at its failing input — a scheduled analysis whose
detector invocation fails: `runSmartCropForImage` marks the image
pending, `analyzeImage` resolves `null`, and the pending flag is never
cleared (the only dispatch that would clear it sits behind
`if (result)`, and the `catch` resetting it is unreachable).  The
image does keep its previous (default fit) framing. -/
theorem runSmartCrop_failure_leaves_pending :
    ((runSmartCropForImage sampleState [] none "a" none).1.images.find?
        (fun img => img.id == "a")).map (fun img => img.isSmartCropPending)
      = some true ∧
      ((runSmartCropForImage sampleState [] none "a" none).1.images.find?
          (fun img => img.id == "a")).map (fun img => img.cropState)
        = some (sampleImage "a").cropState ∧
      (runSmartCropForImage sampleState [] none "a" none).2 = [] := by
  exact ⟨rfl, rfl, rfl⟩

/-- C5 — when no image with the given identity exists, the
analysis-completion transitions `SET_IMAGE_SMART_CROP` and
`UPDATE_CROP_STATE` leave the state unchanged (and being total, raise
no error): a late result for a removed image is discarded. -/
theorem lateResult_discarded (s : AppState) (imageId : String)
    (result : Option SCResult) (cropState : CropState)
    (h : ∀ img ∈ s.images, img.id ≠ imageId) :
    appReducer s (.setImageSmartCrop imageId result) = s ∧
      appReducer s (.updateCropState imageId cropState) = s := by
  have hbeq : ∀ img ∈ s.images, (img.id == imageId) = false := fun img hm =>
    beq_eq_false_iff_ne.mpr (h img hm)
  constructor
  · show { s with images := s.images.map _ } = s
    rw [List.map_congr_left (g := id) fun img hm => by simp [hbeq img hm]]
    rw [List.map_id]
  · show { s with images := s.images.map _ } = s
    rw [List.map_congr_left (g := id) fun img hm => by simp [hbeq img hm]]
    rw [List.map_id]

/-- Witness for C5: a late result for the absent id `"gone"` on the
one-image sample state. -/
theorem lateResult_discarded_witness :
    (∀ img ∈ sampleState.images, img.id ≠ "gone") ∧
      (appReducer sampleState (.setImageSmartCrop "gone" none) = sampleState ∧
        appReducer sampleState
            (.updateCropState "gone" ⟨1/2, 1/2, 1, 1, none, none⟩)
          = sampleState) :=
  ⟨by decide, lateResult_discarded sampleState "gone" none
    ⟨1/2, 1/2, 1, 1, none, none⟩ (by decide)⟩

/-- C10 — after `APPLY_CROP_TO_ALL payload`, every entry's framing
equals `payload` with `aspect` replaced by the current global export
aspect `targetWidth / targetHeight`; in particular each entry's own
`sourceHash` fingerprint is overwritten by `payload`'s fingerprint. -/
theorem applyCropToAll_overwrites (s : AppState) (payload : CropState) :
    ∀ img ∈ (appReducer s (.applyCropToAll payload)).images,
      img.cropState
          = { payload with aspect :=
              (s.settings.exportSettings.targetWidth : ℚ)
                / (s.settings.exportSettings.targetHeight : ℚ) } ∧
        img.cropState.sourceHash = payload.sourceHash := by
  intro img hmem
  obtain ⟨img0, -, rfl⟩ := List.mem_map.mp hmem
  exact ⟨rfl, rfl⟩

/-- Witness for C10 on the one-image sample state: the entry's own
fingerprint `"hash-a"` is replaced by the payload's `"hash-p"`. -/
theorem applyCropToAll_overwrites_witness :
    { sampleImage "a" with cropState :=
        { (⟨1/4, 1/3, 2, 7, none, some "hash-p"⟩ : CropState) with
            aspect := (1200 : ℚ) / 800 } }
        ∈ (appReducer sampleState
            (.applyCropToAll ⟨1/4, 1/3, 2, 7, none, some "hash-p"⟩)).images ∧
      ({ sampleImage "a" with cropState :=
          { (⟨1/4, 1/3, 2, 7, none, some "hash-p"⟩ : CropState) with
              aspect := (1200 : ℚ) / 800 } } : ImageFile).cropState
          = { (⟨1/4, 1/3, 2, 7, none, some "hash-p"⟩ : CropState) with
              aspect := (sampleState.settings.exportSettings.targetWidth : ℚ)
                / (sampleState.settings.exportSettings.targetHeight : ℚ) } ∧
        ({ sampleImage "a" with cropState :=
            { (⟨1/4, 1/3, 2, 7, none, some "hash-p"⟩ : CropState) with
                aspect := (1200 : ℚ) / 800 } } : ImageFile).cropState.sourceHash
          = some "hash-p" :=
  ⟨List.mem_singleton.mpr rfl,
    applyCropToAll_overwrites sampleState ⟨1/4, 1/3, 2, 7, none, some "hash-p"⟩
      _ (List.mem_singleton.mpr rfl)⟩

/-! ## Batch export (`src/lib/exportUtils.ts`)

The rasterizer collaborator (`processImage`) is modelled by an oracle
`raster : ImageFile → Option String`: `some blob` means the
crop-and-encode promise resolves with that blob, `none` means it
rejects.  `saveAs`/`zip.file` outputs are modelled as the list of
`(filename, blob)` pairs; a thrown error is `Except.error`. -/

/-- The extension rule of `generateExportFilename`
(`src/lib/imageUtils.ts` line 141): `'jpeg' ? 'jpg' : settings.format`. -/
def formatExt : ImgFormat → String
  | .jpeg => "jpg"
  | .png => "png"
  | .webp => "webp"

/-- `generateExportFilename` from `src/lib/imageUtils.ts`
(lines 136-143). -/
def generateExportFilename (index : Nat) (settings : ExportSettings) : String :=
  settings.prefixStr ++ toString (settings.startIndex + index)
    ++ settings.suffixStr ++ "." ++ formatExt settings.format

/-- The `for (let i = 0; i < images.length; i++)` body of
`exportImages` (lines 125-135): an image without a bitmap is skipped
(`continue`); a rasterization rejection propagates out of the loop,
abandoning the files collected so far (the zip is never generated);
otherwise the file is added and `onProgress(i + 1, total)` fires. -/
def exportLoop (raster : ImageFile → Option String) (settings : ExportSettings)
    (total : Nat) :
    List ImageFile → Nat → List (String × String) → List (Nat × Nat) →
      Except String (List (String × String) × List (Nat × Nat))
  | [], _, files, progress => .ok (files, progress)
  | image :: rest, i, files, progress =>
    if !image.hasBitmap then
      exportLoop raster settings total rest (i + 1) files progress
    else
      match raster image with
      | none => .error "Failed to create blob"
      | some blob =>
        exportLoop raster settings total rest (i + 1)
          (files ++ [(generateExportFilename i settings, blob)])
          (progress ++ [(i + 1, total)])

/-- `exportImages` from `src/lib/exportUtils.ts` (lines 99-140): empty
collection throws `'No images to export'`; a single image downloads
directly (throwing `'Image not loaded'` without a bitmap); multiple
images run the zip loop. -/
def exportImages (raster : ImageFile → Option String)
    (images : List ImageFile) (settings : ExportSettings) :
    Except String (List (String × String) × List (Nat × Nat)) :=
  match images with
  | [] => .error "No images to export"
  | [image] =>
    if !image.hasBitmap then .error "Image not loaded"
    else
      match raster image with
      | none => .error "Failed to create blob"
      | some blob => .ok ([(generateExportFilename 0 settings, blob)], [(1, 1)])
  | image1 :: image2 :: rest =>
    exportLoop raster settings (image1 :: image2 :: rest).length
      (image1 :: image2 :: rest) 0 [] []

/-- A rasterizer oracle that fails exactly on image `"a"`. -/
def cexRaster : ImageFile → Option String := fun img =>
  if img.id == "a" then none else some "blob-b"

/-- C3 counterexample — in the two-image export `["a", "b"]` where
rasterization fails for `"a"` and succeeds for `"b"`, `exportImages`
propagates the rejection and produces no output at all: image `"b"`'s
rasterization succeeds yet it gets no output, contradicting the claim
that a failure for an earlier image never aborts the remaining ones. -/
theorem exportImages_failure_aborts_rest :
    exportImages cexRaster [sampleImage "a", sampleImage "b"]
        ⟨.jpeg, 90, 1200, 800, false, "image-", "", 1⟩
      = .error "Failed to create blob" ∧
      cexRaster (sampleImage "b") = some "blob-b" :=
  ⟨rfl, rfl⟩

theorem exportLoop_error_of_failure
    (raster : ImageFile → Option String) (settings : ExportSettings)
    (total : Nat) :
    ∀ (l : List ImageFile) (i : Nat) (files : List (String × String))
      (progress : List (Nat × Nat)),
      (∃ img ∈ l, img.hasBitmap = true ∧ raster img = none) →
      exportLoop raster settings total l i files progress
        = .error "Failed to create blob" := by
  intro l
  induction l with
  | nil =>
    intro i files progress h
    obtain ⟨img, hmem, -⟩ := h
    exact absurd hmem (List.not_mem_nil img)
  | cons image rest ih =>
    intro i files progress h
    rw [exportLoop]
    by_cases hb : image.hasBitmap
    · simp only [hb, Bool.not_true, Bool.false_eq_true, if_false]
      cases hr : raster image with
      | none => rfl
      | some blob =>
        refine ih _ _ _ ?_
        obtain ⟨img, hmem, hbit, hnone⟩ := h
        rcases List.mem_cons.mp hmem with rfl | hmem'
        · rw [hr] at hnone
          exact absurd hnone (Option.some_ne_none blob)
        · exact ⟨img, hmem', hbit, hnone⟩
    · have hb' : image.hasBitmap = false := Bool.eq_false_iff.mpr hb
      simp only [hb', Bool.not_false, if_true]
      refine ih _ _ _ ?_
      obtain ⟨img, hmem, hbit, hnone⟩ := h
      rcases List.mem_cons.mp hmem with rfl | hmem'
      · rw [hbit] at hb'
        exact absurd hb' (by simp)
      · exact ⟨img, hmem', hbit, hnone⟩

theorem exportLoop_ok_of_all_succeed
    (raster : ImageFile → Option String) (settings : ExportSettings)
    (total : Nat) :
    ∀ (l : List ImageFile) (i : Nat) (files : List (String × String))
      (progress : List (Nat × Nat)),
      (∀ img ∈ l, img.hasBitmap = true → (raster img).isSome) →
      ∃ f p, exportLoop raster settings total l i files progress = .ok (f, p) ∧
        f.length = files.length
          + (l.filter fun img => img.hasBitmap).length := by
  intro l
  induction l with
  | nil =>
    intro i files progress _
    exact ⟨files, progress, rfl, by simp⟩
  | cons image rest ih =>
    intro i files progress h
    rw [exportLoop]
    by_cases hb : image.hasBitmap
    · simp only [hb, Bool.not_true, Bool.false_eq_true, if_false]
      cases hr : raster image with
      | none =>
        have := h image (List.mem_cons_self _ _) hb
        rw [hr] at this
        exact absurd this (by simp)
      | some blob =>
        obtain ⟨f, p, hok, hlen⟩ := ih (i + 1)
          (files ++ [(generateExportFilename i settings, blob)])
          (progress ++ [(i + 1, total)])
          (fun img hm => h img (List.mem_cons_of_mem _ hm))
        refine ⟨f, p, hok, ?_⟩
        rw [hlen]
        simp [List.filter_cons, hb]
        omega
    · have hb' : image.hasBitmap = false := Bool.eq_false_iff.mpr hb
      simp only [hb', Bool.not_false, if_true]
      obtain ⟨f, p, hok, hlen⟩ := ih (i + 1) files progress
        (fun img hm => h img (List.mem_cons_of_mem _ hm))
      refine ⟨f, p, hok, ?_⟩
      rw [hlen]
      simp [List.filter_cons, hb']

/-- C3 (amended) — only an empty collection surfaces the blocking
`'No images to export'` error, and an image with a missing bitmap is
skipped individually; but in a multi-image export a rasterization
rejection for any loaded image propagates and aborts the *entire*
export (no archive, no output even for images that rasterize fine);
when every loaded image rasterizes, each of them gets exactly one
output. -/
theorem exportImages_error_propagation
    (raster : ImageFile → Option String) (images : List ImageFile)
    (settings : ExportSettings) :
    (images = [] →
      exportImages raster images settings = .error "No images to export") ∧
    (1 < images.length →
      ((∃ img ∈ images, img.hasBitmap = true ∧ raster img = none) →
        exportImages raster images settings = .error "Failed to create blob") ∧
      ((∀ img ∈ images, img.hasBitmap = true → (raster img).isSome) →
        ∃ f p, exportImages raster images settings = .ok (f, p) ∧
          f.length = (images.filter fun img => img.hasBitmap).length)) := by
  constructor
  · intro h
    subst h
    rfl
  · intro hlen
    match images, hlen with
    | image1 :: image2 :: rest, _ =>
      constructor
      · intro hfail
        exact exportLoop_error_of_failure raster settings _ _ 0 [] [] hfail
      · intro hsucc
        obtain ⟨f, p, hok, hl⟩ :=
          exportLoop_ok_of_all_succeed raster settings
            (image1 :: image2 :: rest).length (image1 :: image2 :: rest)
            0 [] [] hsucc
        exact ⟨f, p, hok, by simpa using hl⟩

/-- Witness for C3 (amended) on the failing two-image input: the
failure hypothesis is discharged concretely and the whole export
errors. -/
theorem exportImages_error_propagation_witness :
    1 < ([sampleImage "a", sampleImage "b"] : List ImageFile).length ∧
      (∃ img ∈ ([sampleImage "a", sampleImage "b"] : List ImageFile),
        img.hasBitmap = true ∧ cexRaster img = none) ∧
      exportImages cexRaster [sampleImage "a", sampleImage "b"]
          ⟨.jpeg, 90, 1200, 800, false, "image-", "", 1⟩
        = .error "Failed to create blob" :=
  ⟨by norm_num,
    ⟨sampleImage "a", List.mem_cons_self _ _, rfl, rfl⟩,
    ((exportImages_error_propagation cexRaster
        [sampleImage "a", sampleImage "b"]
        ⟨.jpeg, 90, 1200, 800, false, "image-", "", 1⟩).2
      (by norm_num)).1
      ⟨sampleImage "a", List.mem_cons_self _ _, rfl, rfl⟩⟩

end MyBIRME
